import Mathlib

/-!
# Verification of the doctor-appointment orchestration core

Shallow embedding of the orchestration engine of the doctor-appointment
platform: the circuit breaker and retry policy
(`src/infrastructure/resilience/`), the supervisor / capability /
memory nodes and the compiled workflow (`src/appointment_agent.py`),
and the request entry points (`src/api.py`, `src/config/settings.py`).

External collaborators (the LLM completion service, the tool-running
react agents, the Mem0 memory store, audit/metrics sinks) are modelled
as oracles supplying each call's outcome; everything the repository's
own code computes from those outcomes is embedded faithfully.
-/

namespace DoctorAppointment

/-! ## Settings (src/config/settings.py)

Only the fields the orchestration core reads; defaults as declared. -/

structure Settings where
  recursionLimit : Nat := 20
  maxAgentSteps : Nat := 15
  circuitBreakerFailureThreshold : Nat := 5
  circuitBreakerRecoveryTimeout : Nat := 60
  circuitBreakerHalfOpenMaxCalls : Nat := 2
  retryMaxAttempts : Nat := 3
  deriving DecidableEq, Repr

def defaultSettings : Settings := {}

/-! ## Circuit breaker (src/infrastructure/resilience/circuit_breaker.py)

Times are naturals (seconds); `time.time()` readings are passed in
explicitly as `now`.  The wrapped operation's outcome is passed in as an
`Except`, and `call` reports whether the operation was invoked at all. -/

inductive CircuitState where
  | CLOSED
  | OPEN
  | HALF_OPEN
  deriving DecidableEq, Repr

structure CircuitBreaker where
  name : String
  failureThreshold : Nat
  recoveryTimeout : Nat
  halfOpenMaxCalls : Nat
  state : CircuitState
  failureCount : Nat
  successCount : Nat
  halfOpenCalls : Nat
  lastFailureTime : Nat
  deriving DecidableEq, Repr

/-- `CircuitBreaker.__init__`: fresh breaker in `CLOSED` with zeroed counters. -/
def mkCircuitBreaker (name : String) (failureThreshold : Nat := 5)
    (recoveryTimeout : Nat := 60) (halfOpenMaxCalls : Nat := 2) : CircuitBreaker :=
  { name := name
    failureThreshold := failureThreshold
    recoveryTimeout := recoveryTimeout
    halfOpenMaxCalls := halfOpenMaxCalls
    state := CircuitState.CLOSED
    failureCount := 0
    successCount := 0
    halfOpenCalls := 0
    lastFailureTime := 0 }

namespace CircuitBreaker

/-- `CircuitBreaker._transition_to`: set the state and reset the counters
the target state clears (`OPEN` clears nothing). -/
def transitionTo (cb : CircuitBreaker) (ns : CircuitState) : CircuitBreaker :=
  let cb := { cb with state := ns }
  match ns with
  | CircuitState.CLOSED =>
      { cb with failureCount := 0, successCount := 0, halfOpenCalls := 0 }
  | CircuitState.HALF_OPEN =>
      { cb with halfOpenCalls := 0, successCount := 0 }
  | CircuitState.OPEN => cb

/-- `CircuitBreaker._check_state_transition`: lazy `OPEN → HALF_OPEN` once the
recovery timeout has elapsed since the last failure. -/
def checkStateTransition (cb : CircuitBreaker) (now : Nat) : CircuitBreaker :=
  if cb.state = CircuitState.OPEN ∧ cb.recoveryTimeout ≤ now - cb.lastFailureTime then
    cb.transitionTo CircuitState.HALF_OPEN
  else cb

/-- `CircuitBreaker._on_success`. -/
def onSuccess (cb : CircuitBreaker) : CircuitBreaker :=
  if cb.state = CircuitState.HALF_OPEN then
    let cb := { cb with successCount := cb.successCount + 1 }
    if cb.halfOpenMaxCalls ≤ cb.successCount then cb.transitionTo CircuitState.CLOSED
    else cb
  else if cb.state = CircuitState.CLOSED then
    { cb with failureCount := 0 }
  else cb

/-- `CircuitBreaker._on_failure`: count the failure, stamp the time, and
trip to `OPEN` from `HALF_OPEN` always / from `CLOSED` at the threshold. -/
def onFailure (cb : CircuitBreaker) (now : Nat) : CircuitBreaker :=
  let cb := { cb with failureCount := cb.failureCount + 1, lastFailureTime := now }
  if cb.state = CircuitState.HALF_OPEN then
    cb.transitionTo CircuitState.OPEN
  else if cb.state = CircuitState.CLOSED ∧ cb.failureThreshold ≤ cb.failureCount then
    cb.transitionTo CircuitState.OPEN
  else cb

/-- `CircuitBreaker._time_until_recovery` (truncated subtraction plays the
role of `max 0 _`). -/
def timeUntilRecovery (cb : CircuitBreaker) (now : Nat) : Nat :=
  cb.recoveryTimeout - (now - cb.lastFailureTime)

end CircuitBreaker

/-- Result of one pass through `CircuitBreaker.call`: the wrapped value, the
re-raised original error, or one of the two `CircuitBreakerOpenError`
rejections (open circuit / half-open probe limit). -/
inductive CallOutcome (E A : Type) where
  | value (a : A)
  | raised (e : E)
  | rejectedOpen (remaining : Nat)
  | rejectedHalfOpen
  deriving DecidableEq, Repr

/-- `CircuitBreaker.call`: admission control under the lock, then the wrapped
operation (its outcome given as `op`), then success/failure bookkeeping.
Returns the outcome, the new breaker state, and whether the wrapped
operation was actually invoked. -/
def CircuitBreaker.call {E A : Type} (cb : CircuitBreaker) (now : Nat)
    (op : Except E A) : CallOutcome E A × CircuitBreaker × Bool :=
  let cb := cb.checkStateTransition now
  if cb.state = CircuitState.OPEN then
    (CallOutcome.rejectedOpen (cb.timeUntilRecovery now), cb, false)
  else if cb.state = CircuitState.HALF_OPEN ∧ cb.halfOpenMaxCalls ≤ cb.halfOpenCalls then
    (CallOutcome.rejectedHalfOpen, cb, false)
  else
    let cb := if cb.state = CircuitState.HALF_OPEN then
        { cb with halfOpenCalls := cb.halfOpenCalls + 1 }
      else cb
    match op with
    | Except.ok a => (CallOutcome.value a, cb.onSuccess, true)
    | Except.error e => (CallOutcome.raised e, cb.onFailure now, true)

/-- `CircuitBreaker.reset`. -/
def CircuitBreaker.resetBreaker (cb : CircuitBreaker) : CircuitBreaker :=
  cb.transitionTo CircuitState.CLOSED

/-- Python `a or b` on an optional integer argument: `None` and `0` are both
falsy and fall back to the default. -/
def pyOrNat (a : Option Nat) (b : Nat) : Nat :=
  match a with
  | none => b
  | some n => if n = 0 then b else n

/-- `get_circuit_breaker`: look the name up in the registry; on a miss create
a breaker from the supplied arguments (falling back to settings) and store
it; on a hit return the stored breaker, ignoring the arguments. -/
def get_circuit_breaker (breakers : List (String × CircuitBreaker)) (s : Settings)
    (name : String) (failureThreshold recoveryTimeout halfOpenMaxCalls : Option Nat) :
    CircuitBreaker × List (String × CircuitBreaker) :=
  match List.lookup name breakers with
  | some cb => (cb, breakers)
  | none =>
      let cb := mkCircuitBreaker name
        (pyOrNat failureThreshold s.circuitBreakerFailureThreshold)
        (pyOrNat recoveryTimeout s.circuitBreakerRecoveryTimeout)
        (pyOrNat halfOpenMaxCalls s.circuitBreakerHalfOpenMaxCalls)
      (cb, breakers ++ [(name, cb)])

/-! ## Retry policy (src/infrastructure/resilience/retry.py)

Delays are rationals; `random.random()` readings are supplied per attempt
by `rand` (values in `[0,1)`).  Each attempt's outcome is supplied by `f`;
an error not matched by `retryable_exceptions` is `nonRetryable` and
propagates uncaught. -/

structure RetryConfig where
  maxAttempts : Nat := 3
  baseDelay : ℚ := 1
  maxDelay : ℚ := 30
  exponentialBase : ℚ := 2
  jitter : Bool := true
  deriving DecidableEq, Repr

inductive AttemptOutcome (E F A : Type) where
  | ok (a : A)
  | retryable (e : E)
  | nonRetryable (g : F)
  deriving DecidableEq, Repr

/-- Lines 74–79 of `retry.py`: exponential backoff capped at `max_delay`,
then `delay * (0.5 + random.random())` when jitter is on. -/
def backoffDelay (cfg : RetryConfig) (attempt : Nat) (r : ℚ) : ℚ :=
  let d := min (cfg.baseDelay * cfg.exponentialBase ^ (attempt - 1)) cfg.maxDelay
  if cfg.jitter then d * (1/2 + r) else d

/-- The `for attempt in range(1, max_attempts + 1)` loop of `wrapper`.
`fuel` is the number of remaining iterations; falling off the end of the
loop (only possible when `max_attempts = 0`) returns Python's implicit
`None`, modelled as `Except.ok none`.  The second component collects the
sleeps performed, in order. -/
def retryLoop {E F A : Type} (cfg : RetryConfig) (f : Nat → AttemptOutcome E F A)
    (rand : Nat → ℚ) : Nat → Nat → Except (E ⊕ F) (Option A) × List ℚ
  | _, 0 => (Except.ok none, [])
  | attempt, fuel + 1 =>
    match f attempt with
    | AttemptOutcome.ok a => (Except.ok (some a), [])
    | AttemptOutcome.nonRetryable g => (Except.error (Sum.inr g), [])
    | AttemptOutcome.retryable e =>
      if attempt = cfg.maxAttempts then (Except.error (Sum.inl e), [])
      else
        let d := backoffDelay cfg attempt (rand attempt)
        let rest := retryLoop cfg f rand (attempt + 1) fuel
        (rest.1, d :: rest.2)

/-- `retry_with_backoff(...)`'s `wrapper`: run the attempt loop from
attempt 1. -/
def retryRun {E F A : Type} (cfg : RetryConfig) (f : Nat → AttemptOutcome E F A)
    (rand : Nat → ℚ) : Except (E ⊕ F) (Option A) × List ℚ :=
  retryLoop cfg f rand 1 cfg.maxAttempts

/-! ## Conversation state and patches (src/appointment_agent.py, src/api.py)

`AgentState` mirrors the `AgentState` TypedDict.  Messages carry an
optional identity (langgraph assigns a fresh one on merge when absent);
`add_messages` merges a patch's message list into the channel, replacing
by identity and appending the rest in order. -/

inductive Role where
  | user
  | assistant
  deriving DecidableEq, Repr

structure Message where
  role : Role
  content : String
  name : Option String := none
  id : Option Nat := none
  deriving DecidableEq, Repr

/-- A fresh message identity: one more than every identity already used. -/
def freshId (msgs : List Message) : Nat :=
  (msgs.filterMap (fun m => m.id)).foldl max 0 + 1

/-- Merge one patch message into the channel: assign an identity when
missing, then replace the message with the same identity if present,
otherwise append. -/
def addOneMessage (acc : List Message) (m : Message) : List Message :=
  let m' := match m.id with
    | some _ => m
    | none => { m with id := some (freshId acc) }
  if acc.any (fun x => x.id = m'.id) then
    acc.map (fun x => if x.id = m'.id then m' else x)
  else acc ++ [m']

/-- langgraph's `add_messages` reducer on the `messages` channel. -/
def addMessages (left right : List Message) : List Message :=
  right.foldl addOneMessage left

structure AgentState where
  messages : List Message
  idNumber : Nat
  next : String
  query : String
  currentReasoning : String
  memoryContext : String
  tenantId : String
  deriving DecidableEq, Repr

/-- A node's returned state patch: present fields are applied, `messages`
through the `add_messages` reducer, scalars by overwrite. -/
structure StateUpdate where
  messages : Option (List Message) := none
  next : Option String := none
  query : Option String := none
  currentReasoning : Option String := none
  memoryContext : Option String := none
  deriving DecidableEq, Repr

/-- langgraph `Command(goto=..., update=...)`. -/
structure Command where
  goto : String
  update : StateUpdate
  deriving DecidableEq, Repr

def applyUpdate (s : AgentState) (u : StateUpdate) : AgentState :=
  { s with
    messages := match u.messages with
      | some ms => addMessages s.messages ms
      | none => s.messages
    next := u.next.getD s.next
    query := u.query.getD s.query
    currentReasoning := u.currentReasoning.getD s.currentReasoning
    memoryContext := u.memoryContext.getD s.memoryContext }

/-! ## Graph nodes (src/appointment_agent.py)

Each node is a pure function of the state plus the outcome of its
external call(s). -/

/-- The structured routing output (`Router` TypedDict).  The `next` field is
a plain string: the `Literal` annotation is not enforced at runtime. -/
structure RouterResp where
  next : String
  reasoning : String
  deriving DecidableEq, Repr

/-- Outcome of the supervisor's breaker-guarded structured LLM call.  Only
`CircuitBreakerOpenError` is caught in `supervisor_node`; any other
exception propagates out of the node and is not modelled here. -/
inductive SupOutcome where
  | ok (r : RouterResp)
  | breakerOpen (msg : String)
  deriving DecidableEq, Repr

/-- Outcome of a capability node's breaker-guarded react-agent call: the
content of the last message of a successful result, a
`CircuitBreakerOpenError`, or any other exception. -/
inductive CapOutcome where
  | ok (lastContent : String)
  | breakerOpen (msg : String)
  | exn (msg : String)
  deriving DecidableEq, Repr

/-- The `HumanMessage` the first supervisor pass appends to carry the query
forward. -/
def idNumberMessage (idNumber : Nat) : Message :=
  { role := Role.user
    content := "user\x27s identification number is " ++ toString idNumber }

/-- `DoctorAppointmentAgent.supervisor_node`: compute the first-pass query,
route on the structured decision (remapping `FINISH` to
`memory_extraction`), or force the memory-extraction route on a breaker
rejection. -/
def supervisor_node (state : AgentState) (outcome : SupOutcome) : Command :=
  let query := match state.messages with
    | [m] => m.content
    | _ => ""
  match outcome with
  | SupOutcome.breakerOpen msg =>
      { goto := "memory_extraction"
        update := { next := some "memory_extraction"
                    currentReasoning := some ("Circuit breaker: " ++ msg) } }
  | SupOutcome.ok r =>
      let goto := if r.next = "FINISH" then "memory_extraction" else r.next
      if query ≠ "" then
        { goto := goto
          update := { next := some goto
                      query := some query
                      currentReasoning := some r.reasoning
                      messages := some [idNumberMessage state.idNumber] } }
      else
        { goto := goto
          update := { next := some goto
                      currentReasoning := some r.reasoning } }

/-- The memory instruction block both capability nodes append to their
system prompt when the state carries a memory context. -/
def memoryInstruction (memoryBlock : String) : String :=
  if memoryBlock ≠ "" then
    "\n\nYou have access to the patient\x27s memory context below. Use it to personalize your responses.\n"
      ++ memoryBlock ++ "\n"
  else ""

def informationBasePrompt : String :=
  "You are specialized agent to provide information related to availability of doctors or any FAQs related to hospital based on the query. You have access to the tool.\nMake sure to ask user politely if you need any further information to execute the tool.\nFor your information, Always consider current year is 2026.\nYou can also store important patient preferences or context using the memory tools."

def bookingBasePrompt : String :=
  "You are specialized agent to set, cancel or reschedule appointment based on the query. You have access to the tool.\nMake sure to ask user politely if you need any further information to execute the tool.\nFor your information, Always consider current year is 2026.\nAfter completing a booking action, use the memory tools to store the appointment details and any patient preferences mentioned during the conversation."

def informationToolNames : List String :=
  ["check_availability_by_doctor", "check_availability_by_specialization",
   "recall_patient_memories", "store_patient_memory"]

def bookingToolNames : List String :=
  ["set_appointment", "cancel_appointment", "reschedule_appointment",
   "recall_patient_memories", "store_patient_memory",
   "get_patient_appointment_history"]

/-- The `{systemPrompt, toolSet}` capability profile `information_node`
builds on each invocation (lines 238–269). -/
def informationProfile (state : AgentState) : String × List String :=
  (informationBasePrompt ++ memoryInstruction state.memoryContext, informationToolNames)

/-- The `{systemPrompt, toolSet}` capability profile `booking_node` builds
on each invocation (lines 314–348). -/
def bookingProfile (state : AgentState) : String × List String :=
  (bookingBasePrompt ++ memoryInstruction state.memoryContext, bookingToolNames)

/-- The single message a capability node appends: the last content of the
agent result on success, or the degraded message a caught exception was
converted to, always tagged with the node's name. -/
def capReplyMessage (nodeName : String) (outcome : CapOutcome) : Message :=
  let lastContent := match outcome with
    | CapOutcome.ok c => c
    | CapOutcome.breakerOpen m => "Service temporarily unavailable: " ++ m
    | CapOutcome.exn _ => "I encountered an error processing your request. Please try again."
  { role := Role.assistant, content := lastContent, name := some nodeName }

/-- `DoctorAppointmentAgent.information_node`: catch breaker rejections and
any other exception locally, append exactly one tagged assistant message,
and always hand control back to the supervisor. -/
def information_node (state : AgentState) (outcome : CapOutcome) : Command :=
  { goto := "supervisor"
    update := { messages := some (state.messages ++ [capReplyMessage "information_node" outcome]) } }

/-- `DoctorAppointmentAgent.booking_node`: same shape as the information
node with the booking profile and tag. -/
def booking_node (state : AgentState) (outcome : CapOutcome) : Command :=
  { goto := "supervisor"
    update := { messages := some (state.messages ++ [capReplyMessage "booking_node" outcome]) } }

/-- `DoctorAppointmentAgent.memory_retrieval_node`: the recalled memory
block (empty when memory is disabled or recall fails) is injected into the
state; control always goes to the supervisor. -/
def memory_retrieval_node (memoryText : String) : Command :=
  { goto := "supervisor", update := { memoryContext := some memoryText } }

/-- `DoctorAppointmentAgent.memory_extraction_node` returns an empty patch
(`{}`); extraction side effects are external and best-effort. -/
def memoryExtractionUpdate : StateUpdate := {}

/-! ## The workflow engine

The node set and edges are those of `DoctorAppointmentAgent.workflow`:
`START → memory_retrieval`, `memory_extraction → END`, everything else
routed by the `Command.goto` each node returns.  The driving loop itself
(langgraph's `invoke` with its `recursion_limit`) is not part of this
repository.

Modelled from the spec: the engine loop counts one step per node
transition and aborts the request with a step-limit-exceeded failure once
the configured limit (default 20, `Settings.recursion_limit`, passed by
`invoke_fn` in `src/api.py`) would be exceeded. -/

inductive NodeId where
  | memoryRetrieval
  | supervisor
  | informationNode
  | bookingNode
  | memoryExtraction
  | done
  deriving DecidableEq, Repr

/-- Resolve a `Command.goto` string against the compiled graph's node names
(`__end__` is langgraph's `END`).  An unknown name is an engine error. -/
def parseGoto : String → Option NodeId
  | "memory_retrieval" => some NodeId.memoryRetrieval
  | "supervisor" => some NodeId.supervisor
  | "information_node" => some NodeId.informationNode
  | "booking_node" => some NodeId.bookingNode
  | "memory_extraction" => some NodeId.memoryExtraction
  | "__end__" => some NodeId.done
  | _ => none

/-- Outcomes of every external call the nodes make, indexed by the global
step number at which the node runs. -/
structure Oracle where
  memText : Nat → String
  sup : Nat → SupOutcome
  info : Nat → CapOutcome
  book : Nat → CapOutcome

/-- Run one node of the compiled graph.  `memory_extraction`'s only
outgoing edge is the static `add_edge("memory_extraction", END)`. -/
def runNode (o : Oracle) (step : Nat) : NodeId → AgentState → Command
  | NodeId.memoryRetrieval, _ => memory_retrieval_node (o.memText step)
  | NodeId.supervisor, s => supervisor_node s (o.sup step)
  | NodeId.informationNode, s => information_node s (o.info step)
  | NodeId.bookingNode, s => booking_node s (o.book step)
  | NodeId.memoryExtraction, _ => { goto := "__end__", update := memoryExtractionUpdate }
  | NodeId.done, _ => { goto := "__end__", update := {} }

inductive EngineErr where
  | stepLimitExceeded
  | invalidNode (goto : String)
  deriving DecidableEq, Repr

/-- Modelled from the spec: the step-limited engine loop.  `fuel` is the
number of node transitions still allowed; reaching `done` returns the
final state, running out of fuel before `done` aborts with
`stepLimitExceeded`.  Also returns the list of nodes executed. -/
def engineLoop (o : Oracle) : Nat → Nat → NodeId → AgentState →
    Except EngineErr AgentState × List NodeId
  | 0, _, node, s =>
    if node = NodeId.done then (Except.ok s, [])
    else (Except.error EngineErr.stepLimitExceeded, [])
  | fuel + 1, step, node, s =>
    if node = NodeId.done then (Except.ok s, [])
    else
      let cmd := runNode o step node s
      let s2 := applyUpdate s cmd.update
      match parseGoto cmd.goto with
      | none => (Except.error (EngineErr.invalidNode cmd.goto), [node])
      | some nxt =>
        let rest := engineLoop o fuel (step + 1) nxt s2
        (rest.1, node :: rest.2)

/-- Applying the request input to the empty state assigns identities to the
initial messages through the `add_messages` reducer. -/
def initState (input : AgentState) : AgentState :=
  { input with messages := addMessages [] input.messages }

/-- One request through the compiled graph: start at `memory_retrieval`
with at most `limit` node transitions. -/
def engineRun (o : Oracle) (limit : Nat) (input : AgentState) :
    Except EngineErr AgentState × List NodeId :=
  engineLoop o limit 0 NodeId.memoryRetrieval (initState input)

/-- A routing decision within the closed `Router` enumeration. -/
def supValid : SupOutcome → Prop
  | SupOutcome.ok r =>
      r.next = "information_node" ∨ r.next = "booking_node" ∨ r.next = "FINISH"
  | SupOutcome.breakerOpen _ => True

/-- Every supervisor outcome the oracle can produce is within the closed
`Router` enumeration (or a breaker rejection). -/
def validOracle (o : Oracle) : Prop := ∀ n, supValid (o.sup n)

/-- `execute_agent` / `invoke_fn` (src/api.py): the initial state built from
a request. -/
def requestInput (messageText : String) (idNumber : Nat) (tenantId : String) : AgentState :=
  { messages := [{ role := Role.user, content := messageText }]
    idNumber := idNumber
    next := ""
    query := ""
    currentReasoning := ""
    memoryContext := ""
    tenantId := tenantId }

/-- `execute_agent` (src/api.py): the route reported to the caller is the
final state's `next` field (`response.get("next", "")`). -/
def reportedRoute (r : Except EngineErr AgentState) : String :=
  match r with
  | Except.ok s => s.next
  | Except.error _ => ""

/-! ## Scenario helpers -/

/-- `k` consecutive failing calls (same error, same clock reading) pushed
through a breaker. -/
def failCalls (e : String) (now : Nat) : Nat → CircuitBreaker → CircuitBreaker
  | 0, cb => cb
  | k + 1, cb => failCalls e now k ((cb.call now (Except.error e : Except String Unit)).2.1)

/-- `k` consecutive successful calls pushed through a breaker. -/
def succCalls (a : String) (now : Nat) : Nat → CircuitBreaker → CircuitBreaker
  | 0, cb => cb
  | k + 1, cb => succCalls a now k ((cb.call now (Except.ok a : Except String String)).2.1)

/-- The messages carried by a successful engine result (empty on failure). -/
def finalMessages (r : Except EngineErr AgentState) : List Message :=
  match r with
  | Except.ok s => s.messages
  | Except.error _ => []

/-! ## Concrete scenario fixtures -/

/-- An oracle whose supervisor call always hits an open breaker. -/
def demoOracle : Oracle :=
  { memText := fun _ => ""
    sup := fun _ => SupOutcome.breakerOpen "llm unavailable"
    info := fun _ => CapOutcome.ok ""
    book := fun _ => CapOutcome.ok "" }

def demoInput : AgentState := requestInput "hello" 1000000 "default"

/-- Breaker run used against claim C5: threshold 1, recovery 10 s,
two half-open probes; one failure, then after recovery one successful
probe, then one failing probe. -/
def c5cb0 : CircuitBreaker := mkCircuitBreaker "llm_api" 1 10 2

def c5cb1 : CircuitBreaker := (c5cb0.call 0 (Except.error "boom" : Except String String)).2.1

def c5cb2 : CircuitBreaker := (c5cb1.call 10 (Except.ok "fine" : Except String String)).2.1

def c5cb3 : CircuitBreaker := (c5cb2.call 11 (Except.error "boom" : Except String String)).2.1

/-- A breaker sitting in the `OPEN` state after five failures at t = 100. -/
def c5OpenBreaker : CircuitBreaker :=
  { name := "llm_api", failureThreshold := 5, recoveryTimeout := 60, halfOpenMaxCalls := 2
    state := CircuitState.OPEN, failureCount := 5, successCount := 0, halfOpenCalls := 0
    lastFailureTime := 100 }

/-- The same breaker at the start of a half-open window. -/
def c5HalfOpenBreaker : CircuitBreaker := { c5OpenBreaker with state := CircuitState.HALF_OPEN }

def c6State : AgentState := requestInput "hello" 1000000 "default"

/-- Retry configuration with jitter on, and a first-attempt transient
failure; the jitter reading is 0.6. -/
def c7JitterCfg : RetryConfig :=
  { maxAttempts := 2, baseDelay := 1, maxDelay := 30, exponentialBase := 2, jitter := true }

def c7JitterF : Nat → AttemptOutcome String String String :=
  fun n => if n = 1 then AttemptOutcome.retryable "transient" else AttemptOutcome.ok "done"

def c7JitterRand : Nat → ℚ := fun _ => 3/5

/-- The configuration of the testable property in the spec:
`maxAttempts 3, baseDelay 1.0, exponentialBase 2.0, jitter false`, with a
persistently failing operation. -/
def c7SpecCfg : RetryConfig :=
  { maxAttempts := 3, baseDelay := 1, maxDelay := 30, exponentialBase := 2, jitter := false }

def c7SpecE : Nat → String := fun k => "fail" ++ toString k

def c7SpecF : Nat → AttemptOutcome String String String :=
  fun k => AttemptOutcome.retryable (c7SpecE k)

def c7SpecRand : Nat → ℚ := fun _ => 0

/-- The scenario of claim C8: the supervisor routes to booking on its first
pass and finishes on its second; the booking agent succeeds. -/
def c8Oracle : Oracle :=
  { memText := fun _ => ""
    sup := fun n =>
      if n ≤ 1 then SupOutcome.ok { next := "booking_node", reasoning := "user asks to book" }
      else SupOutcome.ok { next := "FINISH", reasoning := "booking handled" }
    info := fun _ => CapOutcome.ok ""
    book := fun _ => CapOutcome.ok "Your dentist appointment is booked." }

def c8Input : AgentState := requestInput "book a dentist appointment" 1000000 "default"

def c9sEmpty : AgentState := requestInput "hello" 1000000 "default"

def c9sMem : AgentState := { c9sEmpty with memoryContext := "Patient prefers Dr. Smith." }

/-- Same memory context as `c9sMem`, different conversation state. -/
def c9sOther : AgentState :=
  { c9sMem with next := "booking_node", query := "book", currentReasoning := "r" }

/-! ## Helper lemmas -/

/-- The goto of a supervisor pass with a parsed decision: only `FINISH` is
remapped, every other value passes through unchanged. -/
theorem supervisor_goto_eq (s : AgentState) (r : RouterResp) :
    (supervisor_node s (SupOutcome.ok r)).goto =
      (if r.next = "FINISH" then "memory_extraction" else r.next) := by
  simp [supervisor_node]
  split <;> rfl

/-- A successful probe in a half-open window with the success counter one
short of the maximum closes the breaker. -/
theorem step_closes (cb : CircuitBreaker) (a : String) (t : Nat)
    (hst : cb.state = CircuitState.HALF_OPEN) (hlt : cb.halfOpenCalls < cb.halfOpenMaxCalls)
    (hmax : cb.halfOpenMaxCalls ≤ cb.successCount + 1) :
    ((cb.call t (Except.ok a : Except String String)).2.1).state = CircuitState.CLOSED := by
  simp [CircuitBreaker.call, CircuitBreaker.checkStateTransition, hst, Nat.not_le.mpr hlt,
    CircuitBreaker.onSuccess, CircuitBreaker.transitionTo, hmax]

/-- A successful probe strictly below the success maximum keeps the breaker
half-open and advances both window counters. -/
theorem step_continues (cb : CircuitBreaker) (a : String) (t : Nat)
    (hst : cb.state = CircuitState.HALF_OPEN) (hlt : cb.halfOpenCalls < cb.halfOpenMaxCalls)
    (hmax : cb.successCount + 1 < cb.halfOpenMaxCalls) :
    ((cb.call t (Except.ok a : Except String String)).2.1).state = CircuitState.HALF_OPEN ∧
    ((cb.call t (Except.ok a : Except String String)).2.1).successCount = cb.successCount + 1 ∧
    ((cb.call t (Except.ok a : Except String String)).2.1).halfOpenCalls = cb.halfOpenCalls + 1 ∧
    ((cb.call t (Except.ok a : Except String String)).2.1).halfOpenMaxCalls = cb.halfOpenMaxCalls := by
  simp [CircuitBreaker.call, CircuitBreaker.checkStateTransition, hst, Nat.not_le.mpr hlt,
    CircuitBreaker.onSuccess, CircuitBreaker.transitionTo, Nat.not_le.mpr hmax]

/-- From the start of a half-open window, `j` consecutive successful probes
with `successCount + j = halfOpenMaxCalls` close the breaker. -/
theorem succCalls_closes (a : String) (t : Nat) :
    ∀ (j : Nat) (cb : CircuitBreaker), 1 ≤ j → cb.state = CircuitState.HALF_OPEN →
      cb.successCount = cb.halfOpenCalls → cb.successCount + j = cb.halfOpenMaxCalls →
      (succCalls a t j cb).state = CircuitState.CLOSED := by
  intro j
  induction j with
  | zero => omega
  | succ m ih =>
    intro cb _ hst hsync hsum
    have hlt : cb.halfOpenCalls < cb.halfOpenMaxCalls := by omega
    by_cases hm : m = 0
    · subst hm
      simp only [succCalls]
      exact step_closes cb a t hst hlt (by omega)
    · have hm1 : 1 ≤ m := Nat.one_le_iff_ne_zero.mpr hm
      simp only [succCalls]
      obtain ⟨h1, h2, h3, h4⟩ := step_continues cb a t hst hlt (by omega)
      exact ih _ hm1 h1 (by omega) (by omega)

/-- Characterisation of the retry loop when every attempt fails with a
retryable error: it sleeps the backoff delay between consecutive attempts
and re-raises the last error. -/
theorem retryLoop_all_retryable (cfg : RetryConfig) (f : Nat → AttemptOutcome String String String)
    (rand : Nat → ℚ) (e : Nat → String)
    (hf : ∀ k, 1 ≤ k → k ≤ cfg.maxAttempts → f k = AttemptOutcome.retryable (e k)) :
    ∀ (m a : Nat), 1 ≤ m → 1 ≤ a → a + m = cfg.maxAttempts + 1 →
      retryLoop cfg f rand a m =
        (Except.error (Sum.inl (e cfg.maxAttempts)),
         (List.range' a (m - 1)).map (fun k => backoffDelay cfg k (rand k))) := by
  intro m
  induction m with
  | zero => omega
  | succ n ih =>
    intro a _ ha hsum
    by_cases hn : n = 0
    · subst hn
      have hamax : a = cfg.maxAttempts := by omega
      subst hamax
      have hfa := hf cfg.maxAttempts ha (le_refl _)
      simp [retryLoop, hfa]
    · have hn1 : 1 ≤ n := Nat.one_le_iff_ne_zero.mpr hn
      have hfa : f a = AttemptOutcome.retryable (e a) := hf a ha (by omega)
      have hne : a ≠ cfg.maxAttempts := by omega
      have hrec := ih (a + 1) hn1 (by omega) (by omega)
      have hr : List.range' a n = a :: List.range' (a + 1) (n - 1) := by
        conv_lhs => rw [show n = (n - 1) + 1 from by omega]
        rw [List.range']
      simp [retryLoop, hfa, hne, hrec, hr]

/-- Characterisation of the retry loop when attempt `k` fails with a
non-retryable error after `k - a` retryable failures: it propagates the
error and performs no further sleep. -/
theorem retryLoop_nonretryable (cfg : RetryConfig) (f : Nat → AttemptOutcome String String String)
    (rand : Nat → ℚ) (g : String) (k : Nat)
    (hk1 : 1 ≤ k) (hk2 : k ≤ cfg.maxAttempts)
    (hfk : f k = AttemptOutcome.nonRetryable g)
    (hbefore : ∀ j, 1 ≤ j → j < k → ∃ ej, f j = AttemptOutcome.retryable ej) :
    ∀ (m a : Nat), 1 ≤ a → a ≤ k → a + m = cfg.maxAttempts + 1 →
      (retryLoop cfg f rand a m).1 = Except.error (Sum.inr g) ∧
      (retryLoop cfg f rand a m).2.length = k - a := by
  intro m
  induction m with
  | zero => omega
  | succ n ih =>
    intro a ha hak hsum
    by_cases hak2 : a = k
    · subst hak2
      simp [retryLoop, hfk]
    · have halt : a < k := by omega
      obtain ⟨ej, hej⟩ := hbefore a ha halt
      have hne : a ≠ cfg.maxAttempts := by omega
      have hrec := ih (a + 1) (by omega) (by omega) (by omega)
      simp [retryLoop, hej, hne, hrec.1, hrec.2]
      omega

/-- The engine loop is the identity on the terminal node. -/
theorem engineLoop_done (o : Oracle) (fuel step : Nat) (s : AgentState) :
    engineLoop o fuel step NodeId.done s = (Except.ok s, []) := by
  cases fuel <;> simp [engineLoop]

/-- The engine loop executes at most `fuel` nodes. -/
theorem engineLoop_length (o : Oracle) :
    ∀ (fuel step : Nat) (node : NodeId) (s : AgentState),
      (engineLoop o fuel step node s).2.length ≤ fuel := by
  intro fuel
  induction fuel with
  | zero => intro step node s; simp [engineLoop]; split <;> simp
  | succ n ih =>
    intro step node s
    by_cases hd : node = NodeId.done
    · subst hd; simp [engineLoop]
    · simp [engineLoop, hd]
      split
      · simp
      · simpa using Nat.succ_le_succ (ih (step + 1) _ _)

/-- Under a valid oracle, every non-terminal node resolves to a next node,
and it resolves to the terminal node only from memory extraction. -/
theorem runNode_goto (o : Oracle) (step : Nat) (node : NodeId) (s : AgentState)
    (hnd : node ≠ NodeId.done) (hv : supValid (o.sup step)) :
    ∃ nxt, parseGoto (runNode o step node s).goto = some nxt ∧
      (nxt = NodeId.done → node = NodeId.memoryExtraction) := by
  cases node with
  | memoryRetrieval => exact ⟨NodeId.supervisor, rfl, by simp⟩
  | informationNode => exact ⟨NodeId.supervisor, rfl, by simp⟩
  | bookingNode => exact ⟨NodeId.supervisor, rfl, by simp⟩
  | memoryExtraction => exact ⟨NodeId.done, rfl, fun _ => rfl⟩
  | done => exact absurd rfl hnd
  | supervisor =>
    show ∃ nxt, parseGoto (supervisor_node s (o.sup step)).goto = some nxt ∧ _
    cases hout : o.sup step with
    | breakerOpen msg =>
      refine ⟨NodeId.memoryExtraction, ?_, by simp⟩
      rfl
    | ok r =>
      rw [hout] at hv
      rcases hv with h | h | h
      · refine ⟨NodeId.informationNode, ?_, by simp⟩
        rw [supervisor_goto_eq, if_neg (by rw [h]; decide), h]; rfl
      · refine ⟨NodeId.bookingNode, ?_, by simp⟩
        rw [supervisor_goto_eq, if_neg (by rw [h]; decide), h]; rfl
      · refine ⟨NodeId.memoryExtraction, ?_, by simp⟩
        rw [supervisor_goto_eq, if_pos h]; rfl

/-- Under a valid oracle the engine loop never hits an unknown node: it
either finishes or runs out of fuel. -/
theorem engineLoop_dichotomy (o : Oracle) (hv : validOracle o) :
    ∀ (fuel step : Nat) (node : NodeId) (s : AgentState),
      (∃ t, (engineLoop o fuel step node s).1 = Except.ok t) ∨
      (engineLoop o fuel step node s).1 = Except.error EngineErr.stepLimitExceeded := by
  intro fuel
  induction fuel with
  | zero =>
    intro step node s
    by_cases hd : node = NodeId.done
    · subst hd; exact Or.inl ⟨s, by simp [engineLoop]⟩
    · exact Or.inr (by simp [engineLoop, hd])
  | succ n ih =>
    intro step node s
    by_cases hd : node = NodeId.done
    · subst hd; exact Or.inl ⟨s, by simp [engineLoop]⟩
    · obtain ⟨nxt, hparse, -⟩ := runNode_goto o step node s hd (hv step)
      have := ih (step + 1) nxt (applyUpdate s (runNode o step node s).update)
      simp only [engineLoop, if_neg hd, hparse]
      exact this

/-- Under a valid oracle, a successful run from any non-terminal node ends
in the memory-extraction node. -/
theorem engineLoop_ok_last (o : Oracle) (hv : validOracle o) :
    ∀ (fuel step : Nat) (node : NodeId) (s : AgentState), node ≠ NodeId.done →
      (∃ t, (engineLoop o fuel step node s).1 = Except.ok t) →
      (engineLoop o fuel step node s).2.getLast? = some NodeId.memoryExtraction := by
  intro fuel
  induction fuel with
  | zero =>
    intro step node s hd ⟨t, ht⟩
    simp [engineLoop, hd] at ht
  | succ n ih =>
    intro step node s hd ⟨t, ht⟩
    obtain ⟨nxt, hparse, hdone⟩ := runNode_goto o step node s hd (hv step)
    simp only [engineLoop, if_neg hd, hparse] at ht ⊢
    by_cases hnx : nxt = NodeId.done
    · subst hnx
      rw [engineLoop_done]
      simp [hdone rfl]
    · have hrec := ih (step + 1) nxt (applyUpdate s (runNode o step node s).update) hnx ⟨t, ht⟩
      have hne : (engineLoop o n (step + 1) nxt (applyUpdate s (runNode o step node s).update)).2 ≠ [] := by
        intro hnil
        rw [hnil] at hrec
        simp at hrec
      cases hcase : (engineLoop o n (step + 1) nxt (applyUpdate s (runNode o step node s).update)).2 with
      | nil => exact absurd hcase hne
      | cons b l =>
        rw [hcase] at hrec
        rw [List.getLast?_cons_cons, hrec]

/-- A name absent from an association list is found after appending its
binding. -/
theorem lookup_append_self (l : List (String × CircuitBreaker)) (name : String)
    (cb : CircuitBreaker) (h : List.lookup name l = none) :
    List.lookup name (l ++ [(name, cb)]) = some cb := by
  induction l with
  | nil => simp [List.lookup]
  | cons p t ih =>
    obtain ⟨k, v⟩ := p
    simp only [List.cons_append, List.lookup] at h ⊢
    cases hek : (name == k) with
    | true => rw [hek] at h; simp at h
    | false => rw [hek] at h; exact ih h

/-! ## The claims -/

/-- Claim C1: for every request, graph execution under a valid oracle
either reaches the terminal state within the step limit or aborts with the
step-limit-exceeded failure, and it never executes more than `limit` node
transitions. -/
theorem engine_reaches_done_or_step_limit (o : Oracle) (limit : Nat) (input : AgentState)
    (hv : validOracle o) :
    ((∃ t, (engineRun o limit input).1 = Except.ok t) ∨
      (engineRun o limit input).1 = Except.error EngineErr.stepLimitExceeded) ∧
    (engineRun o limit input).2.length ≤ limit :=
  ⟨engineLoop_dichotomy o hv limit 0 NodeId.memoryRetrieval (initState input),
   engineLoop_length o limit 0 NodeId.memoryRetrieval (initState input)⟩

/-- Claim C1 witness: a concrete bounded run at the default limit 20. -/
theorem engine_reaches_done_or_step_limit_witness :
    ((∃ t, (engineRun demoOracle defaultSettings.recursionLimit demoInput).1 = Except.ok t) ∨
      (engineRun demoOracle defaultSettings.recursionLimit demoInput).1 =
        Except.error EngineErr.stepLimitExceeded) ∧
    (engineRun demoOracle defaultSettings.recursionLimit demoInput).2.length ≤
      defaultSettings.recursionLimit :=
  engine_reaches_done_or_step_limit demoOracle defaultSettings.recursionLimit demoInput
    (fun _ => True.intro)

/-- Claim C2: a FINISH decision and a breaker rejection are both routed to
the memory-extraction node, a valid supervisor pass never routes straight
to the terminal node, and every successful run ends through the
memory-extraction node. -/
theorem finish_routes_through_memory_extraction :
    (∀ (s : AgentState) (msg : String),
      (supervisor_node s (SupOutcome.breakerOpen msg)).goto = "memory_extraction") ∧
    (∀ (s : AgentState) (r : RouterResp), r.next = "FINISH" →
      (supervisor_node s (SupOutcome.ok r)).goto = "memory_extraction") ∧
    (∀ (s : AgentState) (out : SupOutcome), supValid out →
      parseGoto (supervisor_node s out).goto ≠ some NodeId.done) ∧
    (∀ (o : Oracle) (limit : Nat) (input : AgentState), validOracle o →
      (∃ t, (engineRun o limit input).1 = Except.ok t) →
      (engineRun o limit input).2.getLast? = some NodeId.memoryExtraction) := by
  refine ⟨fun s msg => rfl, fun s r h => ?_, fun s out hv => ?_, ?_⟩
  · rw [supervisor_goto_eq, if_pos h]
  · cases out with
    | breakerOpen msg =>
      show parseGoto "memory_extraction" ≠ some NodeId.done
      decide
    | ok r =>
      rcases hv with h | h | h <;> rw [supervisor_goto_eq]
      · rw [if_neg (by rw [h]; decide), h]; decide
      · rw [if_neg (by rw [h]; decide), h]; decide
      · rw [if_pos h]; decide
  · intro o limit input hv hok
    exact engineLoop_ok_last o hv limit 0 NodeId.memoryRetrieval (initState input)
      (by decide) hok

/-- Claim C2 witness: the breaker-rejected and FINISH passes of a concrete
request route to memory extraction, and the concrete run ends there. -/
theorem finish_routes_through_memory_extraction_witness :
    (supervisor_node demoInput (SupOutcome.breakerOpen "m")).goto = "memory_extraction" ∧
    (supervisor_node demoInput (SupOutcome.ok { next := "FINISH", reasoning := "r" })).goto =
      "memory_extraction" ∧
    parseGoto (supervisor_node demoInput (SupOutcome.breakerOpen "m")).goto ≠
      some NodeId.done ∧
    (engineRun demoOracle 20 demoInput).2.getLast? = some NodeId.memoryExtraction := by
  have h := finish_routes_through_memory_extraction
  exact ⟨h.1 demoInput "m", h.2.1 demoInput { next := "FINISH", reasoning := "r" } rfl,
    h.2.2.1 demoInput (SupOutcome.breakerOpen "m") True.intro,
    h.2.2.2 demoOracle 20 demoInput (fun _ => True.intro) ⟨_, rfl⟩⟩

/-- Claim C3: for every input state and call outcome, each capability node
returns control to the supervisor and appends exactly one assistant
message tagged with the node name; exceptions and breaker rejections are
converted into that message rather than propagated (the node is a total
function of the outcome). -/
theorem capability_nodes_degrade_locally (s : AgentState) (out : CapOutcome) :
    (information_node s out).goto = "supervisor" ∧
    (booking_node s out).goto = "supervisor" ∧
    (∃ m : Message, (information_node s out).update.messages = some (s.messages ++ [m]) ∧
      m.name = some "information_node" ∧ m.role = Role.assistant) ∧
    (∃ m : Message, (booking_node s out).update.messages = some (s.messages ++ [m]) ∧
      m.name = some "booking_node" ∧ m.role = Role.assistant) :=
  ⟨rfl, rfl, ⟨capReplyMessage "information_node" out, rfl, rfl, rfl⟩,
    ⟨capReplyMessage "booking_node" out, rfl, rfl, rfl⟩⟩

/-- Claim C4: with failure threshold 5, every failing call through a closed
breaker re-raises the original error and increments the failure count;
five consecutive failures open the breaker; and a sixth call before the
recovery timeout elapses is rejected with the typed open-circuit error
without invoking the wrapped operation. -/
theorem breaker_opens_after_five_failures (e : String) (rt hm now now2 : Nat)
    (hrec : now2 - now < rt) :
    (∀ (cb : CircuitBreaker) (t : Nat), cb.state = CircuitState.CLOSED →
      (cb.call t (Except.error e : Except String Unit)).1 = CallOutcome.raised e ∧
      (cb.call t (Except.error e : Except String Unit)).2.2 = true ∧
      (cb.call t (Except.error e : Except String Unit)).2.1.failureCount = cb.failureCount + 1) ∧
    (failCalls e now 5 (mkCircuitBreaker "llm_api" 5 rt hm)).state = CircuitState.OPEN ∧
    ((failCalls e now 5 (mkCircuitBreaker "llm_api" 5 rt hm)).call now2
        (Except.error e : Except String Unit)).1 =
      CallOutcome.rejectedOpen (rt - (now2 - now)) ∧
    ((failCalls e now 5 (mkCircuitBreaker "llm_api" 5 rt hm)).call now2
        (Except.error e : Except String Unit)).2.2 = false := by
  refine ⟨fun cb t hc => ?_, ?_, ?_⟩
  · simp [CircuitBreaker.call, CircuitBreaker.checkStateTransition, CircuitBreaker.onFailure,
      CircuitBreaker.transitionTo, hc]
    split <;> simp
  · simp [failCalls, mkCircuitBreaker, CircuitBreaker.call, CircuitBreaker.checkStateTransition,
      CircuitBreaker.onFailure, CircuitBreaker.transitionTo]
  · simp [failCalls, mkCircuitBreaker, CircuitBreaker.call, CircuitBreaker.checkStateTransition,
      CircuitBreaker.onFailure, CircuitBreaker.transitionTo, CircuitBreaker.timeUntilRecovery,
      Nat.not_le.mpr hrec]

/-- Claim C4 witness: the scenario at the default configuration, with the
sixth call 30 seconds into the 60-second recovery window. -/
theorem breaker_opens_after_five_failures_witness :
    ((mkCircuitBreaker "llm_api" 5 60 2).call 7 (Except.error "boom" : Except String Unit)).1 =
      CallOutcome.raised "boom" ∧
    (failCalls "boom" 0 5 (mkCircuitBreaker "llm_api" 5 60 2)).state = CircuitState.OPEN ∧
    ((failCalls "boom" 0 5 (mkCircuitBreaker "llm_api" 5 60 2)).call 30
        (Except.error "boom" : Except String Unit)).1 = CallOutcome.rejectedOpen 30 ∧
    ((failCalls "boom" 0 5 (mkCircuitBreaker "llm_api" 5 60 2)).call 30
        (Except.error "boom" : Except String Unit)).2.2 = false := by
  have h := breaker_opens_after_five_failures "boom" 60 2 0 30 (by decide)
  exact ⟨(h.1 (mkCircuitBreaker "llm_api" 5 60 2) 7 rfl).1, h.2.1, h.2.2.1, h.2.2.2⟩

/-- Claim C5 counterexample: a failure during the half-open window (after
one successful probe) moves the breaker back to OPEN but does not reset
the success counter, which still reads 1. -/
theorem halfopen_failure_keeps_success_count :
    c5cb2.state = CircuitState.HALF_OPEN ∧ c5cb2.successCount = 1 ∧
    c5cb3.state = CircuitState.OPEN ∧ c5cb3.successCount ≠ 0 := by decide

/-- Claim C5 as amended: once the recovery timeout has elapsed the next
access moves an OPEN breaker to HALF_OPEN with both window counters reset
to zero; a half-open breaker admits a probe exactly while the probe
counter is below the maximum; the maximum number of consecutive successes
closes the breaker; a failure during the window re-raises the error and
moves it back to OPEN (the success counter is reset at the next window
entry, not at the failure itself). -/
theorem halfopen_window_behavior :
    (∀ (cb : CircuitBreaker) (now : Nat), cb.state = CircuitState.OPEN →
      cb.recoveryTimeout ≤ now - cb.lastFailureTime →
      (cb.checkStateTransition now).state = CircuitState.HALF_OPEN ∧
      (cb.checkStateTransition now).successCount = 0 ∧
      (cb.checkStateTransition now).halfOpenCalls = 0) ∧
    (∀ (cb : CircuitBreaker) (now : Nat) (op : Except String String),
      cb.state = CircuitState.HALF_OPEN →
      (cb.halfOpenCalls < cb.halfOpenMaxCalls → (cb.call now op).2.2 = true) ∧
      (cb.halfOpenMaxCalls ≤ cb.halfOpenCalls →
        (cb.call now op).1 = CallOutcome.rejectedHalfOpen ∧ (cb.call now op).2.2 = false)) ∧
    (∀ (cb : CircuitBreaker) (a : String) (t : Nat), cb.state = CircuitState.HALF_OPEN →
      cb.successCount = 0 → cb.halfOpenCalls = 0 → 1 ≤ cb.halfOpenMaxCalls →
      (succCalls a t cb.halfOpenMaxCalls cb).state = CircuitState.CLOSED) ∧
    (∀ (cb : CircuitBreaker) (t : Nat) (e : String), cb.state = CircuitState.HALF_OPEN →
      cb.halfOpenCalls < cb.halfOpenMaxCalls →
      (cb.call t (Except.error e : Except String String)).1 = CallOutcome.raised e ∧
      ((cb.call t (Except.error e : Except String String)).2.1).state = CircuitState.OPEN) := by
  refine ⟨fun cb now hst hel => ?_, fun cb now op hst => ⟨fun hlt => ?_, fun hge => ?_⟩,
    fun cb a t hst hsc hhc hmax => ?_, fun cb t e hst hlt => ?_⟩
  · simp [CircuitBreaker.checkStateTransition, hst, hel, CircuitBreaker.transitionTo]
  · cases op <;>
      simp [CircuitBreaker.call, CircuitBreaker.checkStateTransition, hst, Nat.not_le.mpr hlt]
  · simp [CircuitBreaker.call, CircuitBreaker.checkStateTransition, hst, hge]
  · exact succCalls_closes a t cb.halfOpenMaxCalls cb hmax hst (by omega) (by omega)
  · simp [CircuitBreaker.call, CircuitBreaker.checkStateTransition, hst, Nat.not_le.mpr hlt,
      CircuitBreaker.onFailure, CircuitBreaker.transitionTo]

/-- Claim C5 witness: the amended behavior at a concrete breaker whose
recovery window has elapsed. -/
theorem halfopen_window_behavior_witness :
    (c5OpenBreaker.checkStateTransition 160).state = CircuitState.HALF_OPEN ∧
    (c5HalfOpenBreaker.call 160 (Except.ok "a" : Except String String)).2.2 = true ∧
    (succCalls "a" 160 2 c5HalfOpenBreaker).state = CircuitState.CLOSED ∧
    ((c5HalfOpenBreaker.call 160 (Except.error "e" : Except String String)).2.1).state =
      CircuitState.OPEN := by
  have h := halfopen_window_behavior
  exact ⟨(h.1 c5OpenBreaker 160 rfl (by decide)).1,
    (h.2.1 c5HalfOpenBreaker 160 (Except.ok "a") rfl).1 (by decide),
    h.2.2.1 c5HalfOpenBreaker "a" 160 rfl rfl rfl (by decide),
    (h.2.2.2 c5HalfOpenBreaker 160 "e" rfl (by decide)).2⟩

/-- Claim C6 counterexample: a routing decision whose next field is not one
of the three valid values is not forced to terminate: the supervisor
passes it through unchanged, and the engine does not recognise it. -/
theorem invalid_route_passes_through :
    (supervisor_node c6State (SupOutcome.ok { next := "bogus", reasoning := "r" })).goto =
      "bogus" ∧
    (supervisor_node c6State (SupOutcome.ok { next := "bogus", reasoning := "r" })).goto ≠
      "memory_extraction" ∧
    parseGoto "bogus" = none := by decide

/-- Claim C6 as amended: the supervisor performs no validation of the next
field: only the FINISH value is remapped to memory extraction, every other
value (valid or not) is used as the goto unchanged, and only a breaker
rejection forces the memory-extraction route. -/
theorem supervisor_routing_no_validation (s : AgentState) (r : RouterResp) (msg : String) :
    (r.next ≠ "FINISH" → (supervisor_node s (SupOutcome.ok r)).goto = r.next) ∧
    (r.next = "FINISH" → (supervisor_node s (SupOutcome.ok r)).goto = "memory_extraction") ∧
    (supervisor_node s (SupOutcome.breakerOpen msg)).goto = "memory_extraction" := by
  refine ⟨fun h => ?_, fun h => ?_, rfl⟩
  · rw [supervisor_goto_eq, if_neg h]
  · rw [supervisor_goto_eq, if_pos h]

/-- Claim C6 witness: a valid non-FINISH decision routes to itself. -/
theorem supervisor_routing_no_validation_witness :
    (supervisor_node c6State
        (SupOutcome.ok { next := "information_node", reasoning := "r" })).goto =
      "information_node" :=
  (supervisor_routing_no_validation c6State
    { next := "information_node", reasoning := "r" } "m").1 (by decide)

/-- Claim C7 counterexample: with jitter enabled and a random reading of
0.6, the sleep after the first attempt is 1.1 — strictly greater than the
un-jittered delay of 1, so the jitter factor is not confined to the
claimed interval with upper end 1.0. -/
theorem jitter_factor_exceeds_claimed_bound :
    (retryRun c7JitterCfg c7JitterF c7JitterRand).2 = [11/10] ∧
    ¬((11 : ℚ)/10 ≤
        min (c7JitterCfg.baseDelay * c7JitterCfg.exponentialBase ^ 0) c7JitterCfg.maxDelay * 1) := by
  constructor
  · show (retryLoop c7JitterCfg c7JitterF c7JitterRand 1 2).2 = [11/10]
    norm_num [retryLoop, c7JitterCfg, c7JitterF, c7JitterRand, backoffDelay]
  · norm_num [c7JitterCfg]

/-- Claim C7 as amended: a retryable failure on attempt n below the maximum
is followed by a sleep of min(baseDelay * exponentialBase^(n-1), maxDelay),
scaled when jitter is enabled by a uniform factor in [0.5, 1.5) — not
[0.5, 1.0]; the final attempt's failure re-raises the original error
unchanged; and a non-retryable error aborts immediately without a further
sleep. -/
theorem retry_backoff_behavior (cfg : RetryConfig) (f : Nat → AttemptOutcome String String String)
    (rand : Nat → ℚ) :
    (∀ (e : Nat → String), 1 ≤ cfg.maxAttempts →
      (∀ k, 1 ≤ k → k ≤ cfg.maxAttempts → f k = AttemptOutcome.retryable (e k)) →
      retryRun cfg f rand =
        (Except.error (Sum.inl (e cfg.maxAttempts)),
         (List.range' 1 (cfg.maxAttempts - 1)).map (fun k => backoffDelay cfg k (rand k)))) ∧
    (∀ (n : Nat) (r : ℚ), cfg.jitter = false →
      backoffDelay cfg n r = min (cfg.baseDelay * cfg.exponentialBase ^ (n - 1)) cfg.maxDelay) ∧
    (∀ (n : Nat) (r : ℚ), cfg.jitter = true → 0 ≤ r → r < 1 →
      backoffDelay cfg n r =
        min (cfg.baseDelay * cfg.exponentialBase ^ (n - 1)) cfg.maxDelay * (1/2 + r) ∧
      1/2 ≤ 1/2 + r ∧ (1/2 : ℚ) + r < 3/2) ∧
    (∀ (g : String) (k : Nat), 1 ≤ k → k ≤ cfg.maxAttempts →
      f k = AttemptOutcome.nonRetryable g →
      (∀ j, 1 ≤ j → j < k → ∃ ej, f j = AttemptOutcome.retryable ej) →
      (retryRun cfg f rand).1 = Except.error (Sum.inr g) ∧
      (retryRun cfg f rand).2.length = k - 1) := by
  refine ⟨fun e hmax hf => ?_, fun n r hj => ?_, fun n r hj h0 h1 => ?_,
    fun g k hk1 hk2 hfk hbefore => ?_⟩
  · exact retryLoop_all_retryable cfg f rand e hf cfg.maxAttempts 1 hmax (le_refl 1) (by omega)
  · simp [backoffDelay, hj]
  · refine ⟨by simp [backoffDelay, hj], by linarith, by linarith⟩
  · have h := retryLoop_nonretryable cfg f rand g k hk1 hk2 hfk hbefore cfg.maxAttempts 1
      (le_refl 1) hk1 (by omega)
    exact ⟨h.1, by rw [retryRun]; omega⟩

/-- Claim C7 witness: the testable property of the spec — maxAttempts 3,
baseDelay 1, exponentialBase 2, jitter off, persistent failure — sleeps
exactly 1 then 2 seconds and re-raises the third error. -/
theorem retry_backoff_behavior_witness :
    retryRun c7SpecCfg c7SpecF c7SpecRand = (Except.error (Sum.inl (c7SpecE 3)), [1, 2]) := by
  have h := (retry_backoff_behavior c7SpecCfg c7SpecF c7SpecRand).1 c7SpecE (by decide)
    (fun k h1 h2 => rfl)
  rw [h]
  norm_num [backoffDelay, c7SpecCfg, List.range']

/-- Claim C8 counterexample: in the booking-then-terminate scenario, the
route reported to the caller is memory_extraction, not booking: the
terminate pass overwrites the next field with its remapped goto. -/
theorem scenario_reported_route_is_memory_extraction :
    reportedRoute (engineRun c8Oracle 20 c8Input).1 = "memory_extraction" ∧
    reportedRoute (engineRun c8Oracle 20 c8Input).1 ≠ "booking_node" := by decide

/-- Claim C8 as amended: the booking-then-terminate scenario ends with
exactly two more messages than the initial state (the supervisor-appended
user message and the booking-node assistant message), terminates through
the memory-extraction node, and reports route memory_extraction (the
terminate pass overwrites the booking route). -/
theorem scenario_booking_then_finish :
    (finalMessages (engineRun c8Oracle 20 c8Input).1).length = c8Input.messages.length + 2 ∧
    (finalMessages (engineRun c8Oracle 20 c8Input).1).map (fun m => (m.role, m.name)) =
      [(Role.user, none), (Role.user, none), (Role.assistant, some "booking_node")] ∧
    reportedRoute (engineRun c8Oracle 20 c8Input).1 = "memory_extraction" ∧
    (engineRun c8Oracle 20 c8Input).2 =
      [NodeId.memoryRetrieval, NodeId.supervisor, NodeId.bookingNode,
       NodeId.supervisor, NodeId.memoryExtraction] := by decide

set_option maxRecDepth 8000 in
/-- Claim C9 counterexample: the capability profiles of two states that
differ only in their memory context are different — the system prompt is
rebuilt per call from the state and is not a fixed value of the variant. -/
theorem capability_profile_varies_with_memory :
    informationProfile c9sEmpty ≠ informationProfile c9sMem ∧
    bookingProfile c9sEmpty ≠ bookingProfile c9sMem := by decide

/-- Claim C9 as amended: each capability profile is a function of the state
only through its memory context — the tool set is a fixed value of the
variant, and two states with equal memory context get identical profiles,
but the system prompt does vary with the memory context. -/
theorem capability_profile_depends_only_on_memory_context (s t : AgentState) :
    (informationProfile s).2 = informationToolNames ∧
    (bookingProfile s).2 = bookingToolNames ∧
    (s.memoryContext = t.memoryContext →
      informationProfile s = informationProfile t ∧
      bookingProfile s = bookingProfile t) :=
  ⟨rfl, rfl, fun h => by simp [informationProfile, bookingProfile, h]⟩

/-- Claim C9 witness: two different conversation states with the same
memory context share both profiles. -/
theorem capability_profile_depends_only_on_memory_context_witness :
    informationProfile c9sMem = informationProfile c9sOther ∧
    bookingProfile c9sMem = bookingProfile c9sOther :=
  (capability_profile_depends_only_on_memory_context c9sMem c9sOther).2.2 rfl

/-- Claim C10: a registry lookup of an existing name returns the breaker
stored at first creation and leaves the registry unchanged, ignoring any
configuration arguments; a first lookup creates the breaker from its own
arguments (with settings as the fallback), and that configuration wins for
all later lookups. -/
theorem breaker_registry_first_config_wins (reg : List (String × CircuitBreaker)) (s : Settings)
    (name : String) (ft1 rt1 hm1 ft2 rt2 hm2 : Option Nat) :
    (∀ cb, List.lookup name reg = some cb →
      get_circuit_breaker reg s name ft2 rt2 hm2 = (cb, reg)) ∧
    (List.lookup name reg = none →
      (get_circuit_breaker reg s name ft1 rt1 hm1).1 =
        mkCircuitBreaker name (pyOrNat ft1 s.circuitBreakerFailureThreshold)
          (pyOrNat rt1 s.circuitBreakerRecoveryTimeout)
          (pyOrNat hm1 s.circuitBreakerHalfOpenMaxCalls) ∧
      get_circuit_breaker (get_circuit_breaker reg s name ft1 rt1 hm1).2 s name ft2 rt2 hm2 =
        ((get_circuit_breaker reg s name ft1 rt1 hm1).1,
          (get_circuit_breaker reg s name ft1 rt1 hm1).2)) := by
  constructor
  · intro cb h
    simp [get_circuit_breaker, h]
  · intro h
    refine ⟨by simp [get_circuit_breaker, h], ?_⟩
    have hl := lookup_append_self reg name
      (mkCircuitBreaker name (pyOrNat ft1 s.circuitBreakerFailureThreshold)
        (pyOrNat rt1 s.circuitBreakerRecoveryTimeout)
        (pyOrNat hm1 s.circuitBreakerHalfOpenMaxCalls)) h
    simp [get_circuit_breaker, h, hl]

/-- Claim C10 witness: creating the default llm_api breaker in an empty
registry and looking it up again with different arguments returns the
original breaker and leaves the registry unchanged. -/
theorem breaker_registry_first_config_wins_witness :
    get_circuit_breaker (get_circuit_breaker [] defaultSettings "llm_api" none none none).2
        defaultSettings "llm_api" (some 9) (some 9) (some 9) =
      ((get_circuit_breaker [] defaultSettings "llm_api" none none none).1,
        (get_circuit_breaker [] defaultSettings "llm_api" none none none).2) :=
  ((breaker_registry_first_config_wins [] defaultSettings "llm_api"
      none none none (some 9) (some 9) (some 9)).2 rfl).2

end DoctorAppointment
